import Mathlib

/-!
Verification model of `src/case-monitor.js` (Teleradyx Cases Monitor).

The script drives a browser against the eRad portal, extracts case counts
for the worklists `A##MY LIST` and `UNVIEWED`, appends a CSV history row,
and writes an alert JSON file when cases are present.  The browser engine,
file system and locale formatter are external collaborators; they appear in
the model as oracle inputs (page contents, pre-formatted locale strings,
failure flags), while every decision the script itself makes is embedded
as an executable Lean function.
-/

/-- Whitespace characters as handled by the JS string operations the source
uses (space, tab, newline, carriage return). -/
def isWS (c : Char) : Bool :=
  c = ' ' || c = '\t' || c = '\n' || c = '\r'

/-- Model of JS `String.prototype.trim`: strip whitespace from both ends. -/
def jsTrim (s : String) : String :=
  ⟨((s.data.dropWhile (fun c => isWS c)).reverse.dropWhile (fun c => isWS c)).reverse⟩

/-- Numeric value of a decimal digit character, `none` otherwise. -/
def decVal (c : Char) : Option Nat :=
  if '0' ≤ c ∧ c ≤ '9' then some (c.toNat - '0'.toNat) else none

/-- Numeric value of a hexadecimal digit character, `none` otherwise. -/
def hexVal (c : Char) : Option Nat :=
  if '0' ≤ c ∧ c ≤ '9' then some (c.toNat - '0'.toNat)
  else if 'a' ≤ c ∧ c ≤ 'f' then some (c.toNat - 'a'.toNat + 10)
  else if 'A' ≤ c ∧ c ≤ 'F' then some (c.toNat - 'A'.toNat + 10)
  else none

/-- Accumulate the value of the longest leading run of digits (helper for
`parseRun`). -/
def digitsAcc (f : Char → Option Nat) (base : Nat) (acc : Nat) : List Char → Nat
  | [] => acc
  | c :: rest =>
    match f c with
    | some d => digitsAcc f base (acc * base + d) rest
    | none => acc

/-- Value of the longest leading digit run of `cs`; `none` (the JS `NaN`
case) when the first character is not a digit. -/
def parseRun (f : Char → Option Nat) (base : Nat) (cs : List Char) : Option Nat :=
  match cs with
  | [] => none
  | c :: _ =>
    match f c with
    | none => none
    | some _ => some (digitsAcc f base 0 cs)

/-- Model of JS `parseInt(s)` with the radix argument omitted: skip leading
whitespace, read an optional sign, use base 16 after a `0x`/`0X` prefix and
base 10 otherwise, parse the longest leading digit run and ignore trailing
garbage; `none` stands for `NaN`. -/
def jsParseInt (s : String) : Option Int :=
  let cs := s.data.dropWhile (fun c => isWS c)
  let sign : Int :=
    match cs with
    | '-' :: _ => -1
    | _ => 1
  let body : List Char :=
    match cs with
    | '-' :: r => r
    | '+' :: r => r
    | r => r
  match body with
  | '0' :: 'x' :: r => (parseRun hexVal 16 r).map (fun n => sign * Int.ofNat n)
  | '0' :: 'X' :: r => (parseRun hexVal 16 r).map (fun n => sign * Int.ofNat n)
  | _ => (parseRun decVal 10 body).map (fun n => sign * Int.ofNat n)

/-- Model of `parseInt(text.trim()) || 0` from `openWorklistAndCount`
(src/case-monitor.js:181): `NaN` (and `0`/`-0`, on which `|| 0` also yields
`0`) normalizes to `0`; any other parsed integer is kept as is. -/
def parseIntOr0 (t : String) : Int :=
  match jsParseInt (jsTrim t) with
  | none => 0
  | some n => if n = 0 then 0 else n

/-- Does `needle` occur as a contiguous run inside the list? (model of JS
`String.prototype.includes`). -/
def subOccurs (needle : List Char) : List Char → Bool
  | [] => needle.isEmpty
  | c :: rest => needle.isPrefixOf (c :: rest) || subOccurs needle rest

/-- Model of JS `haystack.includes(needle)`. -/
def strIncludes (haystack needle : String) : Bool :=
  subOccurs needle.data haystack.data

/-- One `.InnerRow` element as `openWorklistAndCount` sees it: the text
contents of its descendant `div`s and, when present, the trimmed-at-read
text of its `.epserv-TabPanel-BarTotalNum` count element. -/
structure RowModel where
  divTexts : List String
  countText : Option String
deriving DecidableEq

/-- The slice of the live page that `openWorklistAndCount` inspects: the
texts of the `.gwt-Label.epserv-ListLabel` dropdown entries, the
`.InnerRow` elements, and whether any of the page interactions throws
(click/evaluate failure), which the source catches and converts to
`null`. -/
structure PageModel where
  labels : List String
  rows : List RowModel
  throwsError : Bool
deriving DecidableEq

/-- The row scan inside the second `page.evaluate` of `openWorklistAndCount`
(src/case-monitor.js:166-186): the first row whose descendant text contains
the worklist name *and* that has a count element yields
`parseInt(text.trim()) || 0`; rows with the text but no count element are
skipped (the JS loop only returns inside `if (countElement)`); no such row
yields `null`. -/
def findCountInRows (name : String) : List RowModel → Option Int
  | [] => none
  | row :: rest =>
    if row.divTexts.any (fun t => strIncludes t name) then
      match row.countText with
      | some t => some (parseIntOr0 t)
      | none => findCountInRows name rest
    else findCountInRows name rest

/-- Model of `openWorklistAndCount(page, worklistName)`
(src/case-monitor.js:133-195).  Any thrown error is caught and becomes
`null`; if no dropdown label's trimmed text equals the worklist name the
function warns and returns `null`; otherwise the row scan runs. -/
def openWorklistAndCount (page : PageModel) (name : String) : Option Int :=
  if page.throwsError then none
  else
    let clicked := page.labels.any (fun l => jsTrim l == name)
    if clicked then findCountInRows name page.rows
    else none

/-- Raw per-worklist extraction results feeding `getCaseCount`'s
aggregation: `count1` for `A##MY LIST`, `count2` for `UNVIEWED`
(src/case-monitor.js:209-210). -/
structure RawCounts where
  myList : Option Int
  unviewed : Option Int
deriving DecidableEq

/-- The object `getCaseCount` returns on success: the `worklists` mapping
(`A##MY LIST` and `UNVIEWED` entries) and the `total`. -/
structure CaseCountResult where
  myList : Int
  unviewed : Int
  total : Int
deriving DecidableEq

/-- Post-extraction logic of `getCaseCount` (src/case-monitor.js:212-230):
build the `worklistCounts` object replacing each `null` with `0`, set
`totalCount` to the normalized `A##MY LIST` count, and return `null`
(the all-failed signal) exactly when both raw counts are `null`.  The
source builds the mapping before the all-null check; since the mapping is
discarded on that path the order does not matter. -/
def getCaseCountAggregate (raw : RawCounts) : Option CaseCountResult :=
  if raw.myList = none ∧ raw.unviewed = none then none
  else
    some
      { myList := raw.myList.getD 0
        unviewed := raw.unviewed.getD 0
        total := raw.myList.getD 0 }

/-- The JSON object `createAlertFile` writes (src/case-monitor.js:304-311):
`hasCases`, `casesFound`, the `worklists` mapping (its `A##MY LIST` and
`UNVIEWED` entries) and, abstracting the timestamp/doctor/message strings
away, nothing else the claims mention. -/
structure AlertData where
  hasCases : Bool
  casesFound : Int
  myList : Int
  unviewed : Int
deriving DecidableEq

/-- Model of `createAlertFile(worklists, currentCount)`
(src/case-monitor.js:299-319): the alert object sets
`hasCases: currentCount > 1` and `casesFound: currentCount` and carries the
full worklists mapping. -/
def createAlertFile (myList unviewed currentCount : Int) : AlertData :=
  { hasCases := decide (currentCount > 1)
    casesFound := currentCount
    myList := myList
    unviewed := unviewed }

/-- How `setupBrowser` (src/case-monitor.js:27-73) can end: the launch
itself throws (no browser instance exists), the launch succeeds but a later
step (`newPage`/`setUserAgent`) throws — the catch logs and re-throws, so a
browser instance exists but is never returned to the caller — or everything
succeeds. -/
inductive SetupOutcome where
  | launchError
  | pageError
  | ok
deriving DecidableEq

/-- Oracle for one `runCheck` execution: how `setupBrowser` ends, what
`loginToPortal` returns (it catches all its own errors and returns a
boolean), whether `getCaseCount`'s own try block throws before extraction
(e.g. the `.FILTER_DOWN` wait), the raw per-worklist counts, and whether
`browser.close()` in the `finally` block throws. -/
structure RunEnv where
  setup : SetupOutcome
  loginSuccess : Bool
  extractThrows : Bool
  raw : RawCounts
  closeFails : Bool
deriving DecidableEq

/-- Observable outcome of one `runCheck` execution: whether a browser
instance was launched, how many times `browser.close()` was invoked, the
history row appended by `saveToHistory` (its `A##MY LIST` and `UNVIEWED`
columns), the alert object written by `createAlertFile` if any, whether
`runCheck` propagated an error to its caller, and whether a propagated
error came from `browser.close()` itself. -/
structure RunResult where
  launched : Bool
  closeCalls : Nat
  historyRow : Option (Int × Int)
  alertWritten : Option AlertData
  threw : Bool
  closeThrew : Bool
deriving DecidableEq

/-- Model of `runCheck` (src/case-monitor.js:343-394).  The local `browser`
starts as `null`; `setupBrowser` errors propagate before the assignment, so
the `finally` block closes nothing on those paths (on `pageError` a
launched browser leaks).  After assignment every path runs
`await browser.close()` exactly once in `finally`; an exception there
propagates (JS: an exception raised in `finally` replaces the pending
completion).  Login failure and a `null` from `getCaseCount` are turned
into thrown errors; on success `saveToHistory` appends one row and
`createAlertFile` runs only when `worklists['A##MY LIST'] > 0`
(src/case-monitor.js:376).  `saveToHistory`/`createAlertFile` swallow their
own file-system errors, so the row/alert fields record what the script
hands to the file system. -/
def runCheck (env : RunEnv) : RunResult :=
  match env.setup with
  | .launchError =>
    { launched := false, closeCalls := 0, historyRow := none, alertWritten := none
      threw := true, closeThrew := false }
  | .pageError =>
    { launched := true, closeCalls := 0, historyRow := none, alertWritten := none
      threw := true, closeThrew := false }
  | .ok =>
    if env.loginSuccess = false then
      { launched := true, closeCalls := 1, historyRow := none, alertWritten := none
        threw := true, closeThrew := env.closeFails }
    else
      match (if env.extractThrows then none else getCaseCountAggregate env.raw) with
      | none =>
        { launched := true, closeCalls := 1, historyRow := none, alertWritten := none
          threw := true, closeThrew := env.closeFails }
      | some r =>
        { launched := true, closeCalls := 1
          historyRow := some (r.myList, r.unviewed)
          alertWritten :=
            if r.myList > 0 then some (createAlertFile r.myList r.unviewed r.total)
            else none
          threw := env.closeFails, closeThrew := env.closeFails }

/-- Alert-file content after one `runCheck`, given the previous content:
`fs.writeJson` replaces the whole file, and no path of `runCheck` deletes
or truncates the file, so when no alert is written the previous content
stays. -/
def alertFileAfter (prev : Option AlertData) (env : RunEnv) : Option AlertData :=
  match (runCheck env).alertWritten with
  | some a => some a
  | none => prev

/-- How one doctor's pipeline inside `main`'s loop ends: the
`CaseMonitor` constructor plus `runCheck` either return or throw with a
message (src/case-monitor.js:429-439). -/
inductive PipelineResult where
  | ok
  | error (msg : String)
deriving DecidableEq

/-- One configured doctor together with the oracle for how that doctor's
pipeline ends. -/
structure DoctorRun where
  name : String
  result : PipelineResult
deriving DecidableEq

/-- Entry of `main`'s `results` array: `{ doctor, status }` with the error
message kept on failure (src/case-monitor.js:433,437). -/
inductive OutcomeStatus where
  | success
  | failed (err : String)
deriving DecidableEq

/-- A per-doctor outcome record pushed into `results`. -/
structure RunOutcome where
  doctor : String
  status : OutcomeStatus
deriving DecidableEq

/-- One iteration of `main`'s `for (const doctor of doctors)` loop
(src/case-monitor.js:424-444): the try/catch pushes exactly one entry onto
`results` and sets `hasFailures` on error, then the loop continues. -/
def mainStep (acc : List RunOutcome × Bool) (d : DoctorRun) : List RunOutcome × Bool :=
  match d.result with
  | .ok => (acc.1 ++ [⟨d.name, .success⟩], acc.2)
  | .error e => (acc.1 ++ [⟨d.name, .failed e⟩], true)

/-- Model of `main` (src/case-monitor.js:397-467): run every doctor's
pipeline in order accumulating `results` and `hasFailures`, then exit with
code 1 when `hasFailures` and code 0 otherwise (the process falls off the
end of `main`). -/
def mainRun (doctors : List DoctorRun) : List RunOutcome × Nat :=
  let st := doctors.foldl mainStep ([], false)
  (st.1, if st.2 then 1 else 0)

/-- Remove the first `,` of a character list, model of JS
`s.replace(',', '')`: with a string pattern, `String.prototype.replace`
replaces only the first occurrence. -/
def removeFirstComma : List Char → List Char
  | [] => []
  | c :: rest => if c = ',' then rest else c :: removeFirstComma rest

/-- Model of `formatToIST` (src/case-monitor.js:238-254).  The
`toLocaleString('en-IN', …)` call is an external locale formatter, so the
model takes its output string as the input and embeds the one
transformation the source applies: `istDate.replace(',', '')`. -/
def formatToIST (istDate : String) : String :=
  ⟨removeFirstComma istDate.data⟩

/-- Replace every maximal run of whitespace by a single `-`, model of JS
`s.replace(/\s+/g, '-')`; the flag records whether the previous character
was part of a whitespace run already replaced. -/
def collapseWSAux (prevWS : Bool) : List Char → List Char
  | [] => []
  | c :: rest =>
    if isWS c then
      (if prevWS then [] else ['-']) ++ collapseWSAux true rest
    else c :: collapseWSAux false rest

/-- Model of `doctorName.toLowerCase().replace(/\s+/g, '-')` from the
`CaseMonitor` constructor (src/case-monitor.js:19-20); `toLowerCase` is
modelled per character. -/
def slugify (s : String) : String :=
  ⟨collapseWSAux false (s.data.map Char.toLower)⟩

/-- History file path derived in the constructor
(src/case-monitor.js:19). -/
def historyFileName (doctorName : String) : String :=
  "case-history-" ++ slugify doctorName ++ ".csv"

/-- Alert file path derived in the constructor
(src/case-monitor.js:20). -/
def alertFileName (doctorName : String) : String :=
  "alert-status-" ++ slugify doctorName ++ ".json"

/-- The `results` entry `main` records for one doctor: `success` on a
normal return, `failed` with the error message otherwise. -/
def outcomeOf (d : DoctorRun) : RunOutcome :=
  match d.result with
  | .ok => ⟨d.name, .success⟩
  | .error e => ⟨d.name, .failed e⟩

/-- Whether one doctor's pipeline raised (the condition that sets `main`'s
`hasFailures` flag). -/
def isFailure (d : DoctorRun) : Bool :=
  match d.result with
  | .ok => false
  | .error _ => true

/-! ## Theorems -/

/-- Helper: every successful aggregation result has `total` equal to its
`A##MY LIST` entry, since both are set to the normalized `count1`. -/
lemma aggregate_total_eq_myList_field (raw : RawCounts) (r : CaseCountResult)
    (h : getCaseCountAggregate raw = some r) : r.total = r.myList := by
  unfold getCaseCountAggregate at h
  split at h
  · exact absurd h (by simp)
  · cases r
    simp only [Option.some.injEq] at h
    cases h
    rfl

/-- C1: the aggregation step of `getCaseCount` returns the all-failed
signal (`null`) iff both raw worklist counts are `null`; on any other
input it returns a result whose per-worklist mapping replaces each `null`
with `0`. -/
theorem aggregate_allFailed_iff (raw : RawCounts) :
    (getCaseCountAggregate raw = none ↔ (raw.myList = none ∧ raw.unviewed = none))
    ∧ (∀ r, getCaseCountAggregate raw = some r →
        r.myList = raw.myList.getD 0 ∧ r.unviewed = raw.unviewed.getD 0) := by
  constructor
  · unfold getCaseCountAggregate
    split
    · simp_all
    · simp_all
  · intro r hr
    unfold getCaseCountAggregate at hr
    split at hr
    · exact absurd hr (by simp)
    · cases r
      simp only [Option.some.injEq] at hr
      cases hr
      exact ⟨rfl, rfl⟩

/-- Witness for C1 at the concrete raw counts `{A##MY LIST: 3, UNVIEWED: null}`. -/
theorem aggregate_allFailed_iff_witness :
    (⟨3, 0, 3⟩ : CaseCountResult).myList = (some (3 : Int)).getD 0 ∧
    (⟨3, 0, 3⟩ : CaseCountResult).unviewed = (none : Option Int).getD 0 :=
  (aggregate_allFailed_iff ⟨some 3, none⟩).2 ⟨3, 0, 3⟩ (by decide)

/-- C2: whenever aggregation succeeds, the total equals the normalized
`A##MY LIST` raw count, and changing the `UNVIEWED` raw count never changes
the total. -/
theorem aggregate_total_ignores_unviewed (m u1 u2 : Option Int)
    (r1 r2 : CaseCountResult)
    (h1 : getCaseCountAggregate ⟨m, u1⟩ = some r1)
    (h2 : getCaseCountAggregate ⟨m, u2⟩ = some r2) :
    r1.total = m.getD 0 ∧ r1.total = r2.total := by
  unfold getCaseCountAggregate at h1 h2
  split at h1
  · exact absurd h1 (by simp)
  · split at h2
    · exact absurd h2 (by simp)
    · cases r1
      cases r2
      simp only [Option.some.injEq] at h1 h2
      cases h1
      cases h2
      exact ⟨rfl, rfl⟩

/-- Witness for C2 at raw counts `{A##MY LIST: 2, UNVIEWED: null}` versus
`{A##MY LIST: 2, UNVIEWED: 7}`: the total is 2 in both cases. -/
theorem aggregate_total_ignores_unviewed_witness :
    (⟨2, 0, 2⟩ : CaseCountResult).total = (some (2 : Int)).getD 0 ∧
    (⟨2, 0, 2⟩ : CaseCountResult).total = (⟨2, 7, 2⟩ : CaseCountResult).total :=
  aggregate_total_ignores_unviewed (some 2) none (some 7) ⟨2, 0, 2⟩ ⟨2, 7, 2⟩
    (by decide) (by decide)

/-- C10: every alert object `runCheck` ever hands to the alert file has
`casesFound ≥ 1` and an `A##MY LIST` entry `≥ 1`; an alert describing zero
cases is never written. -/
theorem alert_artifact_positive (env : RunEnv) (a : AlertData)
    (h : (runCheck env).alertWritten = some a) :
    1 ≤ a.casesFound ∧ 1 ≤ a.myList ∧ a.casesFound ≠ 0 := by
  unfold runCheck at h
  obtain ⟨s, l, x, raw, c⟩ := env
  cases s
  · exact absurd h (by simp)
  · exact absurd h (by simp)
  · simp only at h
    split at h
    · exact absurd h (by simp)
    · split at h
      · exact absurd h (by simp)
      · rename_i r heq
        have hagg : getCaseCountAggregate raw = some r := by
          split at heq
          · exact absurd heq (by simp)
          · exact heq
        have htot : r.total = r.myList := aggregate_total_eq_myList_field _ _ hagg
        split at h
        · rename_i hpos
          simp only [Option.some.injEq] at h
          cases h
          refine ⟨?_, ?_, ?_⟩ <;> simp [createAlertFile, htot] <;> omega
        · exact absurd h (by simp)

/-- Witness for C10 at raw counts `{A##MY LIST: 3, UNVIEWED: 1}`: the alert
written carries `casesFound = 3 ≥ 1`. -/
theorem alert_artifact_positive_witness :
    1 ≤ (⟨true, 3, 3, 1⟩ : AlertData).casesFound ∧
    1 ≤ (⟨true, 3, 3, 1⟩ : AlertData).myList ∧
    (⟨true, 3, 3, 1⟩ : AlertData).casesFound ≠ 0 :=
  alert_artifact_positive ⟨.ok, true, false, ⟨some 3, some 1⟩, false⟩ ⟨true, 3, 3, 1⟩
    (by decide)

/-- C3 counterexample: at raw counts `{A##MY LIST: 1, UNVIEWED: 0}` the run
succeeds and the alert file is written (the `> 0` guard fires), but the
written artifact has `hasCases = false` because `createAlertFile` computes
`hasCases: currentCount > 1` — refuting the claim that `hasCases` is true
whenever the artifact is written. -/
theorem alert_hasCases_false_at_one :
    (runCheck ⟨.ok, true, false, ⟨some 1, some 0⟩, false⟩).threw = false ∧
    (runCheck ⟨.ok, true, false, ⟨some 1, some 0⟩, false⟩).alertWritten =
      some { hasCases := false, casesFound := 1, myList := 1, unviewed := 0 } := by
  decide

/-- Helper: the value of `runCheck` on the path where setup and login
succeed and aggregation yields `r`. -/
lemma runCheck_success_path (raw : RawCounts) (c : Bool) (r : CaseCountResult)
    (hr : getCaseCountAggregate raw = some r) :
    runCheck ⟨.ok, true, false, raw, c⟩ =
      { launched := true, closeCalls := 1
        historyRow := some (r.myList, r.unviewed)
        alertWritten :=
          if 0 < r.myList then some (createAlertFile r.myList r.unviewed r.total)
          else none
        threw := c, closeThrew := c } := by
  simp [runCheck, hr]

/-- C3 (amended): for every run in which setup, login and aggregation
succeed, the alert artifact is written iff the `A##MY LIST` count is
greater than 0; whenever it is written, its `hasCases` field equals the
comparison `total > 1` (so it is false when the total is exactly 1) and its
`casesFound` field equals the aggregated total. -/
theorem alert_written_iff_myList_pos (env : RunEnv) (r : CaseCountResult)
    (hs : env.setup = .ok) (hl : env.loginSuccess = true)
    (he : env.extractThrows = false)
    (hr : getCaseCountAggregate env.raw = some r) :
    ((runCheck env).alertWritten ≠ none ↔ 0 < r.myList)
    ∧ (∀ a, (runCheck env).alertWritten = some a →
        a.hasCases = decide (1 < r.total) ∧ a.casesFound = r.total) := by
  obtain ⟨s, l, x, raw, c⟩ := env
  simp only at hs hl he hr
  subst hs hl he
  rw [runCheck_success_path raw c r hr]
  constructor
  · by_cases hpos : 0 < r.myList <;> simp [hpos]
  · intro a ha
    by_cases hpos : 0 < r.myList
    · simp only [hpos, if_true, Option.some.injEq] at ha
      cases ha
      exact ⟨rfl, rfl⟩
    · simp [hpos] at ha

/-- Witness for amended C3 at raw counts `{A##MY LIST: 1, UNVIEWED: 0}`. -/
theorem alert_written_iff_myList_pos_witness :
    (⟨false, 1, 1, 0⟩ : AlertData).hasCases = decide ((1 : Int) < 1) ∧
    (⟨false, 1, 1, 0⟩ : AlertData).casesFound = (⟨1, 0, 1⟩ : CaseCountResult).total :=
  (alert_written_iff_myList_pos ⟨.ok, true, false, ⟨some 1, some 0⟩, false⟩ ⟨1, 0, 1⟩
    rfl rfl rfl (by decide)).2 ⟨false, 1, 1, 0⟩ (by decide)

/-- C4 counterexample: when `setupBrowser` launches the browser but then
throws (`pageError`), the launched browser is never closed; and when
`browser.close()` itself throws on an otherwise successful run, the error
propagates out of `runCheck` to the orchestrator instead of being
swallowed — refuting both the "closed exactly once on every path" and the
"close errors are not propagated" parts of the claim. -/
theorem browser_close_leak_and_propagation :
    (runCheck ⟨.pageError, false, false, ⟨none, none⟩, false⟩).launched = true ∧
    (runCheck ⟨.pageError, false, false, ⟨none, none⟩, false⟩).closeCalls = 0 ∧
    (runCheck ⟨.ok, true, false, ⟨some 2, some 0⟩, true⟩).closeThrew = true ∧
    (runCheck ⟨.ok, true, false, ⟨some 2, some 0⟩, true⟩).threw = true := by
  decide

/-- C4 (amended): whenever `setupBrowser` returns successfully, the browser
is closed exactly once before control returns, on the success path and on
every failure path; a browser launched during a `setupBrowser` call that
then fails is never closed; and an error raised by `browser.close()` itself
propagates out of `runCheck` (so the run is reported as thrown) rather than
being logged and swallowed. -/
theorem browser_close_after_setup_ok (env : RunEnv) :
    (env.setup = .ok → (runCheck env).closeCalls = 1)
    ∧ (env.setup = .pageError →
        (runCheck env).launched = true ∧ (runCheck env).closeCalls = 0)
    ∧ (env.setup = .ok → env.closeFails = true →
        (runCheck env).closeThrew = true ∧ (runCheck env).threw = true)
    ∧ (env.closeFails = false → (runCheck env).closeThrew = false) := by
  obtain ⟨s, l, x, raw, c⟩ := env
  cases s <;> cases l <;> cases x <;> cases c <;>
    cases hagg : getCaseCountAggregate raw <;>
      simp [runCheck, hagg]

/-- Witness for amended C4 on a fully successful run: close is called once
and does not throw. -/
theorem browser_close_after_setup_ok_witness :
    (runCheck ⟨.ok, true, false, ⟨some 2, some 0⟩, false⟩).closeCalls = 1 ∧
    (runCheck ⟨.ok, true, false, ⟨some 2, some 0⟩, false⟩).closeThrew = false :=
  ⟨(browser_close_after_setup_ok ⟨.ok, true, false, ⟨some 2, some 0⟩, false⟩).1 rfl,
   (browser_close_after_setup_ok ⟨.ok, true, false, ⟨some 2, some 0⟩, false⟩).2.2.2 rfl⟩

/-- C5 counterexample: a run with raw counts `{A##MY LIST: 0, UNVIEWED: 5}`
has login and aggregation succeed (no error propagates and a history row is
written), yet the alert file is not touched: it still holds the previous
run's snapshot (here one with `casesFound = 3`), refuting the claim that
every successful run overwrites the alert file with that run's state. -/
theorem alert_file_stale_on_zero_run :
    (runCheck ⟨.ok, true, false, ⟨some 0, some 5⟩, false⟩).threw = false ∧
    (runCheck ⟨.ok, true, false, ⟨some 0, some 5⟩, false⟩).historyRow = some (0, 5) ∧
    alertFileAfter (some ⟨true, 3, 3, 1⟩) ⟨.ok, true, false, ⟨some 0, some 5⟩, false⟩ =
      some ⟨true, 3, 3, 1⟩ := by
  decide

/-- C5 (amended): after every run in which login and aggregation succeed
*and* the `A##MY LIST` count is positive, the alert file is overwritten —
replaced whole, not appended — with that run's snapshot, irrespective of
the previous file content; when the `A##MY LIST` count is not positive the
file keeps its previous content, so a watching consumer sees the most
recent run that actually wrote an alert. -/
theorem alert_file_overwritten_when_written (prev : Option AlertData) (env : RunEnv)
    (r : CaseCountResult)
    (hs : env.setup = .ok) (hl : env.loginSuccess = true)
    (he : env.extractThrows = false)
    (hr : getCaseCountAggregate env.raw = some r) (hpos : 0 < r.myList) :
    alertFileAfter prev env = some (createAlertFile r.myList r.unviewed r.total) := by
  obtain ⟨s, l, x, raw, c⟩ := env
  simp only at hs hl he hr
  subst hs hl he
  unfold alertFileAfter
  rw [runCheck_success_path raw c r hr]
  simp [hpos]

/-- Witness for amended C5 at raw counts `{A##MY LIST: 2, UNVIEWED: 1}`
starting from an unrelated previous alert snapshot. -/
theorem alert_file_overwritten_when_written_witness :
    alertFileAfter (some ⟨false, 9, 9, 9⟩) ⟨.ok, true, false, ⟨some 2, some 1⟩, false⟩ =
      some (createAlertFile 2 1 2) :=
  alert_file_overwritten_when_written (some ⟨false, 9, 9, 9⟩)
    ⟨.ok, true, false, ⟨some 2, some 1⟩, false⟩ ⟨2, 1, 2⟩
    rfl rfl rfl (by decide) (by decide)

/-- Helper: closed form of `main`'s per-doctor loop. -/
lemma mainStep_foldl (ds : List DoctorRun) (acc : List RunOutcome) (b : Bool) :
    ds.foldl mainStep (acc, b) = (acc ++ ds.map outcomeOf, b || ds.any isFailure) := by
  induction ds generalizing acc b with
  | nil => simp
  | cons d rest ih =>
    cases hd : d.result <;>
      simp [mainStep, outcomeOf, isFailure, hd, ih]

/-- Helper: a doctor run sets the failure flag iff its pipeline raised. -/
lemma isFailure_iff (d : DoctorRun) :
    isFailure d = true ↔ ∃ e, d.result = PipelineResult.error e := by
  cases hd : d.result <;> simp [isFailure, hd]

/-- C6: the orchestrator records exactly one outcome per configured
account, in the configured order, regardless of which pipelines throw
(`results` is exactly the pointwise image of the account list), and the
process exit status is non-zero iff at least one account's pipeline raised
an error. -/
theorem mainRun_outcomes_and_exit (ds : List DoctorRun) :
    (mainRun ds).1 = ds.map outcomeOf
    ∧ ((mainRun ds).2 ≠ 0 ↔ ∃ d ∈ ds, ∃ e, d.result = PipelineResult.error e) := by
  unfold mainRun
  rw [mainStep_foldl]
  constructor
  · simp
  · simp only [Bool.false_or, List.nil_append]
    by_cases hany : ds.any isFailure = true
    · have hex : ∃ d ∈ ds, ∃ e, d.result = PipelineResult.error e := by
        rw [List.any_eq_true] at hany
        obtain ⟨d, hm, hf⟩ := hany
        exact ⟨d, hm, (isFailure_iff d).1 hf⟩
      simp only [hany]
      exact iff_of_true (by simp) hex
    · simp only [Bool.not_eq_true] at hany
      simp only [hany]
      refine iff_of_false (by simp) ?_
      rintro ⟨d, hm, e, he⟩
      have hf : isFailure d = true := (isFailure_iff d).2 ⟨e, he⟩
      have hds : ds.any isFailure = true := List.any_eq_true.2 ⟨d, hm, hf⟩
      rw [hany] at hds
      exact absurd hds (by simp)

/-- C7 counterexample: on a hypothetical locale-formatter output containing
two commas, the written timestamp still contains a comma, because JS
`s.replace(',', '')` with a string pattern removes only the first
occurrence — refuting the claim for arbitrary formatter output. -/
theorem formatToIST_keeps_second_comma :
    ',' ∈ (formatToIST "13/01/2025, 10:05:30, am").data := by
  decide

/-- Helper: removing the first comma of a list with at most one comma
leaves a comma-free list. -/
lemma removeFirstComma_no_comma (l : List Char) (h : l.count ',' ≤ 1) :
    ',' ∉ removeFirstComma l := by
  induction l with
  | nil => simp [removeFirstComma]
  | cons c rest ih =>
    by_cases hc : c = ','
    · subst hc
      simp only [removeFirstComma, if_pos rfl]
      have hz : rest.count ',' = 0 := by
        simp [List.count_cons] at h
        omega
      exact List.count_eq_zero.1 hz
    · simp only [removeFirstComma, if_neg hc, List.mem_cons]
      push_neg
      refine ⟨fun he => hc he.symm, ?_⟩
      apply ih
      simp only [List.count_cons] at h
      split at h <;> omega

/-- C7 (amended): for every locale-formatter output containing at most one
comma — which holds for the actual `en-IN` format the source requests —
the timestamp string written into a history row contains no comma; the
code removes only the first comma occurrence, so an output with two or
more commas would keep the rest. -/
theorem formatToIST_single_comma_removed (s : String)
    (h : s.data.count ',' ≤ 1) : ',' ∉ (formatToIST s).data :=
  removeFirstComma_no_comma s.data h

/-- Witness for amended C7 at a one-comma formatter output. -/
theorem formatToIST_single_comma_removed_witness :
    ',' ∉ (formatToIST "13/01/2025, 10:05:30 am").data :=
  formatToIST_single_comma_removed "13/01/2025, 10:05:30 am" (by decide)

/-- C8 counterexample: a count element whose text is `-5` makes
`openWorklistAndCount` return `-5`, a negative count, because
`parseInt('-5') || 0` is `-5` — refuting the claim that the returned count
is never negative. -/
theorem openWorklistAndCount_negative :
    openWorklistAndCount ⟨["A##MY LIST"], [⟨["A##MY LIST"], some "-5"⟩], false⟩
        "A##MY LIST" = some (-5) ∧ (-5 : Int) < 0 := by
  decide

/-- Helper: every count returned by the row scan is the normalized parse of
some row's count-element text. -/
lemma findCountInRows_mem (name : String) (rows : List RowModel) (n : Int)
    (h : findCountInRows name rows = some n) :
    ∃ row ∈ rows, ∃ t, row.countText = some t ∧ n = parseIntOr0 t := by
  induction rows with
  | nil => simp [findCountInRows] at h
  | cons row rest ih =>
    unfold findCountInRows at h
    split at h
    · cases hct : row.countText with
      | some t =>
        rw [hct] at h
        simp only [Option.some.injEq] at h
        exact ⟨row, by simp, t, hct, h.symm⟩
      | none =>
        rw [hct] at h
        obtain ⟨row2, hm, t, ht, hn⟩ := ih h
        exact ⟨row2, List.mem_cons_of_mem _ hm, t, ht, hn⟩
    · obtain ⟨row2, hm, t, ht, hn⟩ := ih h
      exact ⟨row2, List.mem_cons_of_mem _ hm, t, ht, hn⟩

/-- C8 (amended): `openWorklistAndCount` returns either `null` or an
integer; a page error and the absence of a matching worklist label both
yield `null`; count-element text that does not parse as a number (parseInt
gives `NaN`) normalizes to `0`; and every returned count is
`parseInt(text) || 0` of some row's count-element text — which is negative
exactly when that text parses to a negative integer, so the returned count
is not always non-negative. -/
theorem openWorklistAndCount_shape (page : PageModel) (name : String) :
    (page.throwsError = true → openWorklistAndCount page name = none)
    ∧ ((∀ l ∈ page.labels, jsTrim l ≠ name) → openWorklistAndCount page name = none)
    ∧ (∀ n, openWorklistAndCount page name = some n →
        ∃ row ∈ page.rows, ∃ t, row.countText = some t ∧ n = parseIntOr0 t)
    ∧ (∀ t, jsParseInt (jsTrim t) = none → parseIntOr0 t = 0) := by
  refine ⟨?_, ?_, ?_, ?_⟩
  · intro h
    simp [openWorklistAndCount, h]
  · intro hl
    unfold openWorklistAndCount
    split
    · rfl
    · have hcl : page.labels.any (fun l => jsTrim l == name) = false := by
        rw [List.any_eq_false]
        intro l hm
        simp only [beq_iff_eq]
        exact hl l hm
      simp [hcl]
  · intro n h
    unfold openWorklistAndCount at h
    split at h
    · exact absurd h (by simp)
    · simp only at h
      split at h
      · exact findCountInRows_mem name page.rows n h
      · exact absurd h (by simp)
  · intro t ht
    unfold parseIntOr0
    rw [ht]

/-- Witness for amended C8: a page without the worklist label yields
`null`, and non-numeric count text normalizes to `0`. -/
theorem openWorklistAndCount_shape_witness :
    openWorklistAndCount ⟨["X"], [], false⟩ "A##MY LIST" = none ∧
    parseIntOr0 "abc" = 0 :=
  ⟨(openWorklistAndCount_shape ⟨["X"], [], false⟩ "A##MY LIST").2.1 (by decide),
   (openWorklistAndCount_shape ⟨["X"], [], false⟩ "A##MY LIST").2.2.2 "abc" (by decide)⟩

/-- C9 counterexample: the display names `a b` and `A B` are distinct, yet
the lowercase-and-dash slug maps both to `a-b`, so the two accounts would
share both the history file and the alert file — refuting the claim for
arbitrary distinct display names. -/
theorem filenames_collide_on_case :
    ("a b" : String) ≠ "A B" ∧
    historyFileName "a b" = historyFileName "A B" ∧
    alertFileName "a b" = alertFileName "A B" := by
  decide

/-- Helper: a string sandwiched between a fixed leading and trailing part
is recoverable, so building file names from slugs is injective in the
slug. -/
lemma wrap_string_inj (p q a b : String)
    (h : p ++ a ++ q = p ++ b ++ q) : a = b := by
  have hd : p.data ++ a.data ++ q.data = p.data ++ b.data ++ q.data :=
    congrArg String.data h
  have h1 : a.data = b.data :=
    List.append_cancel_left (List.append_cancel_right hd)
  cases a
  cases b
  cases h1
  rfl

/-- C9 (amended): two accounts get distinct history file paths and distinct
alert file paths whenever their slugified display names (lowercased, each
whitespace run replaced by `-`) differ; display names that are distinct but
slug-equal (e.g. differing only in letter case) collide. -/
theorem filenames_distinct_of_slug_ne (a b : String)
    (h : slugify a ≠ slugify b) :
    historyFileName a ≠ historyFileName b ∧ alertFileName a ≠ alertFileName b := by
  constructor
  · intro hc
    exact h (wrap_string_inj "case-history-" ".csv" (slugify a) (slugify b) hc)
  · intro hc
    exact h (wrap_string_inj "alert-status-" ".json" (slugify a) (slugify b) hc)

/-- Witness for amended C9 at the two configured accounts, whose slugs
differ. -/
theorem filenames_distinct_of_slug_ne_witness :
    historyFileName "Dr. Abdaallah" ≠ historyFileName "Dr. Amit" ∧
    alertFileName "Dr. Abdaallah" ≠ alertFileName "Dr. Amit" :=
  filenames_distinct_of_slug_ne "Dr. Abdaallah" "Dr. Amit" (by decide)
